import Mathlib

/-!
Shallow embedding of the snake-game headers `src/include/constants.h` and
`src/include/structures.h`.  The repository contains only declarations
(constants and `typedef struct` shapes); C `int` is embedded as `Int`,
C `long long` as `Int`, C pointers as addresses (`Nat`) wrapped in `Option`
for nullability, fixed-size `char` arrays as functions out of `Fin n`, and
string literals as Lean `String`s with the octal escape `\033` written as
`\x1b`.
-/

/- ## Constants from src/include/constants.h -/

/- Game Configuration -/

def BOARD_WIDTH : Nat := 80

def BOARD_HEIGHT : Nat := 25

def INITIAL_SPEED : Nat := 200

def SPEED_ACCEL : Nat := 5

def INITIAL_LENGTH : Nat := 3

/- Game Characters -/

def SNAKE_HEAD : Char := 'O'

def SNAKE_BODY : Char := 'o'

def FOOD_CHAR : Char := '*'

def WALL_CHAR : Char := '#'

def EMPTY_CHAR : Char := ' '

/- Directions -/

def DIR_UP : Nat := 0

def DIR_DOWN : Nat := 1

def DIR_LEFT : Nat := 2

def DIR_RIGHT : Nat := 3

/- Game States -/

def STATE_MENU : Nat := 0

def STATE_PLAYING : Nat := 1

def STATE_PAUSED : Nat := 2

def STATE_GAME_OVER : Nat := 3

def STATE_EXIT : Nat := 4

/- Input Keys -/

def KEY_UP : Nat := 65

def KEY_DOWN : Nat := 66

def KEY_LEFT : Nat := 68

def KEY_RIGHT : Nat := 67

def KEY_SPACE : Nat := 32

def KEY_Q : Nat := 113

def KEY_ESC : Nat := 27

/- Memory Sizes -/

def STACK_SIZE : Nat := 8192

def HEAP_SIZE : Nat := 4096

def BUFFER_SIZE : Nat := 8192

/- System Call Numbers (macOS ARM64) -/

def SYS_READ : Nat := 3

def SYS_WRITE : Nat := 4

def SYS_NANOSLEEP : Nat := 240

def SYS_IOCTL : Nat := 54

/- File Descriptors -/

def STDIN : Nat := 0

def STDOUT : Nat := 1

def STDERR : Nat := 2

/- ANSI Color Codes ("\033" is the escape byte 0x1B) -/

def COLOR_RESET : String := "\x1b[0m"

def COLOR_RED : String := "\x1b[31m"

def COLOR_GREEN : String := "\x1b[32m"

def COLOR_YELLOW : String := "\x1b[33m"

def COLOR_BLUE : String := "\x1b[34m"

def COLOR_MAGENTA : String := "\x1b[35m"

def COLOR_CYAN : String := "\x1b[36m"

def COLOR_WHITE : String := "\x1b[37m"

/- ## Structures from src/include/structures.h -/

/-- Heap addresses: a `SnakeNode*` or `void*` value is an address; a nullable
pointer is an `Option Addr` with `none` for `NULL`. -/
abbrev Addr : Type := Nat

/-- `SnakeNode`: X coordinate, Y coordinate, pointer to next segment. -/
structure SnakeNode where
  x : Int
  y : Int
  next : Option Addr
  deriving DecidableEq, Repr

/-- `GameState`: current game state, score, direction, speed (ms), pause flag,
snake head pointer, snake tail pointer, current snake length, food X and Y
coordinates, and the `char board[BOARD_HEIGHT][BOARD_WIDTH]` game board. -/
structure GameState where
  state : Int
  score : Int
  direction : Int
  speed : Int
  paused : Int
  head : Option Addr
  tail : Option Addr
  snake_length : Int
  food_x : Int
  food_y : Int
  board : Fin BOARD_HEIGHT → Fin BOARD_WIDTH → Char

/-- The declared capacity of `InputBuffer.buffer` (`char buffer[256]`). -/
def INPUT_BUFFER_CAPACITY : Nat := 256

/-- `InputBuffer`: fixed 256-byte input buffer, buffer length, current
position. -/
structure InputBuffer where
  buffer : Fin INPUT_BUFFER_CAPACITY → Char
  length : Int
  position : Int

/-- `GameTimer`: start time in nanoseconds, frame time in nanoseconds,
target frames per second (all `long long`). -/
structure GameTimer where
  start_time : Int
  frame_time : Int
  target_fps : Int
  deriving DecidableEq, Repr

/-- `MemoryPool`: start of memory pool, end of memory pool, current
allocation pointer, available bytes. -/
structure MemoryPool where
  pool_start : Addr
  pool_end : Addr
  current : Addr
  available : Int
  deriving DecidableEq, Repr

/-- A string has the shape of an ANSI escape sequence: it begins with the
escape byte 0x1B followed by the byte of the opening square bracket and ends
with the terminator character of the letter m. -/
def ansiEscapeShape (s : String) : Bool :=
  decide (s.data.take 2 = [Char.ofNat 27, Char.ofNat 91]) &&
    decide (s.data.getLast? = some (Char.ofNat 109))

/-- A heap of `SnakeNode` records: each address holds a node or nothing. -/
def Heap : Type := Addr → Option SnakeNode

/-- The chain of `SnakeNode` records obtained by following `next` links from
address `a` to address `t`: `Chain h a t ns` says that starting at `a` and
repeatedly dereferencing `next`, one visits exactly the nodes `ns` and stops
at `t`, whose `next` is the null pointer. -/
inductive Chain (h : Heap) : Addr → Addr → List SnakeNode → Prop where
  | last : ∀ {a : Addr} {n : SnakeNode},
      h a = some n → n.next = none → Chain h a a [n]
  | cons : ∀ {a b t : Addr} {n : SnakeNode} {ns : List SnakeNode},
      h a = some n → n.next = some b → Chain h b t ns → Chain h a t (n :: ns)

/-- Modelled from the spec: the engine logic that establishes and maintains
this invariant is absent from `src` (the repository is declarations only), so
the invariant itself is taken from the spec's words: the snake is the chain of
nodes from the `head` pointer to the `tail` pointer; `snake_length` equals the
count of nodes in that chain; the food coordinate never coincides with a snake
cell; all node coordinates are within board bounds; and no two nodes occupy
the same cell. -/
def GameStateInv (h : Heap) (g : GameState) : Prop :=
  ∃ (ha ta : Addr) (ns : List SnakeNode),
    g.head = some ha ∧ g.tail = some ta ∧ Chain h ha ta ns ∧
    g.snake_length = (ns.length : Int) ∧
    (∀ n ∈ ns, ¬ (g.food_x = n.x ∧ g.food_y = n.y)) ∧
    (∀ n ∈ ns,
      0 ≤ n.x ∧ n.x < (BOARD_WIDTH : Int) ∧
      0 ≤ n.y ∧ n.y < (BOARD_HEIGHT : Int)) ∧
    List.Pairwise (fun m k => ¬ (m.x = k.x ∧ m.y = k.y)) ns

/-- Modelled from the spec: the loop body is absent from `src` (declarations
only). The spec paces the loop by "sleep[ing] for the remaining frame budget":
with `start_time` the frame start and `frame_time` the per-frame time budget
in nanoseconds, at current time `now` the loop sleeps for the part of the
budget not yet elapsed, never a negative amount. -/
def sleepBudget (t : GameTimer) (now : Int) : Int :=
  max 0 (t.frame_time - (now - t.start_time))

/-- A concrete one-node heap: address 0 holds a node at (5, 7) whose `next`
is null. -/
def heapA : Heap := fun a =>
  match a with
  | 0 => some ⟨5, 7, none⟩
  | _ => none

/-- A concrete `GameState` over `heapA`: a one-node snake with head and tail
both at address 0 and food at (10, 12). -/
def gA : GameState :=
  ⟨1, 0, 3, 200, 0, some 0, some 0, 1, 10, 12, fun _ _ => ' '⟩

/-- A concrete two-node heap: address 0 holds (3, 4) linking to address 1,
which holds (3, 5) with null `next`. -/
def heapB : Heap := fun a =>
  match a with
  | 0 => some ⟨3, 4, some 1⟩
  | 1 => some ⟨3, 5, none⟩
  | _ => none

/-- A concrete `GameState` over `heapB`: a two-node snake from address 0 to
address 1 with food at (9, 9). -/
def gB : GameState :=
  ⟨1, 10, 1, 195, 0, some 0, some 1, 2, 9, 9, fun _ _ => ' '⟩

/- ## Theorems -/

/-- C7: the terminal-input key constants are the raw byte codes of the keys:
`KEY_SPACE = 32` (ASCII space), `KEY_Q = 113` (ASCII q), `KEY_ESC = 27`
(ASCII escape), and the arrow-key constants `KEY_UP = 65`, `KEY_DOWN = 66`,
`KEY_LEFT = 68`, `KEY_RIGHT = 67` equal the ASCII codes of the letters
A, B, D, C — the final bytes of the ANSI arrow-key escape sequences. -/
theorem key_constants_are_raw_byte_codes :
    KEY_SPACE = 32 ∧ KEY_SPACE = Char.toNat ' ' ∧
    KEY_Q = 113 ∧ KEY_Q = Char.toNat 'q' ∧
    KEY_ESC = 27 ∧
    KEY_UP = 65 ∧ KEY_UP = Char.toNat 'A' ∧
    KEY_DOWN = 66 ∧ KEY_DOWN = Char.toNat 'B' ∧
    KEY_LEFT = 68 ∧ KEY_LEFT = Char.toNat 'D' ∧
    KEY_RIGHT = 67 ∧ KEY_RIGHT = Char.toNat 'C' := by
  decide

/-- C8: every one of the eight `COLOR_*` constants is an ANSI escape
sequence: it begins with the escape byte 0x1B followed by the opening square
bracket and ends with the terminator letter m. -/
theorem color_constants_are_ansi_escape_sequences :
    ansiEscapeShape COLOR_RESET = true ∧
    ansiEscapeShape COLOR_RED = true ∧
    ansiEscapeShape COLOR_GREEN = true ∧
    ansiEscapeShape COLOR_YELLOW = true ∧
    ansiEscapeShape COLOR_BLUE = true ∧
    ansiEscapeShape COLOR_MAGENTA = true ∧
    ansiEscapeShape COLOR_CYAN = true ∧
    ansiEscapeShape COLOR_WHITE = true := by
  decide

/-- C9: the `InputBuffer` raw byte buffer has a fixed capacity of exactly
256 bytes, strictly smaller than the `BUFFER_SIZE` constant of 8192, so a
single read of up to `BUFFER_SIZE` bytes cannot be stored in one
`InputBuffer`. -/
theorem input_buffer_capacity_below_buffer_size :
    INPUT_BUFFER_CAPACITY = 256 ∧
    Fintype.card (Fin INPUT_BUFFER_CAPACITY) = 256 ∧
    BUFFER_SIZE = 8192 ∧
    INPUT_BUFFER_CAPACITY < BUFFER_SIZE ∧
    ¬ BUFFER_SIZE ≤ INPUT_BUFFER_CAPACITY := by
  exact ⟨rfl, Fintype.card_fin INPUT_BUFFER_CAPACITY, rfl, by decide, by decide⟩

/-- C10: the four direction constants `DIR_UP, DIR_DOWN, DIR_LEFT, DIR_RIGHT`
(0, 1, 2, 3) are pairwise distinct, and the five game-state constants
`STATE_MENU, STATE_PLAYING, STATE_PAUSED, STATE_GAME_OVER, STATE_EXIT`
(0, 1, 2, 3, 4) are pairwise distinct. -/
theorem direction_and_state_constants_pairwise_distinct :
    (DIR_UP = 0 ∧ DIR_DOWN = 1 ∧ DIR_LEFT = 2 ∧ DIR_RIGHT = 3) ∧
    List.Pairwise (fun a b => a ≠ b) [DIR_UP, DIR_DOWN, DIR_LEFT, DIR_RIGHT] ∧
    (STATE_MENU = 0 ∧ STATE_PLAYING = 1 ∧ STATE_PAUSED = 2 ∧
      STATE_GAME_OVER = 3 ∧ STATE_EXIT = 4) ∧
    List.Pairwise (fun a b => a ≠ b)
      [STATE_MENU, STATE_PLAYING, STATE_PAUSED, STATE_GAME_OVER, STATE_EXIT] := by
  decide

/-- C1: for every `GameState` satisfying the invariant, `snake_length` equals
the number of `SnakeNode` records reachable by following `next` links from
the head reference to the tail reference, and the food coordinate
`(food_x, food_y)` differs from the `(x, y)` coordinate of every node in that
chain. -/
theorem gameStateInv_length_and_food (h : Heap) (g : GameState)
    (hin : GameStateInv h g) :
    ∃ (ha ta : Addr) (ns : List SnakeNode),
      g.head = some ha ∧ g.tail = some ta ∧ Chain h ha ta ns ∧
      g.snake_length = (ns.length : Int) ∧
      ∀ n ∈ ns, (g.food_x, g.food_y) ≠ (n.x, n.y) := by
  obtain ⟨ha, ta, ns, h1, h2, h3, h4, h5, -, -⟩ := hin
  refine ⟨ha, ta, ns, h1, h2, h3, h4, ?_⟩
  intro n hn
  have hfood := h5 n hn
  simp only [Ne, Prod.mk.injEq]
  tauto

/-- Witness for C1: the invariant holds of the concrete one-node state `gA`
over `heapA`, and there the conclusion evaluates. -/
theorem gameStateInv_length_and_food_witness :
    GameStateInv heapA gA ∧
    ∃ (ha ta : Addr) (ns : List SnakeNode),
      gA.head = some ha ∧ gA.tail = some ta ∧ Chain heapA ha ta ns ∧
      gA.snake_length = (ns.length : Int) ∧
      ∀ n ∈ ns, (gA.food_x, gA.food_y) ≠ (n.x, n.y) := by
  have hin : GameStateInv heapA gA :=
    ⟨0, 0, [⟨5, 7, none⟩], rfl, rfl, Chain.last rfl rfl, rfl,
      by decide, by decide, by decide⟩
  exact ⟨hin, gameStateInv_length_and_food heapA gA hin⟩

/-- C2: for every snake chain satisfying the invariant, every node coordinate
lies within board bounds (`0 ≤ x < BOARD_WIDTH = 80`, `0 ≤ y < BOARD_HEIGHT
= 25`) and no two distinct nodes of the chain share an `(x, y)` coordinate. -/
theorem gameStateInv_bounds_and_no_overlap (h : Heap) (g : GameState)
    (hin : GameStateInv h g) :
    ∃ (ha ta : Addr) (ns : List SnakeNode),
      g.head = some ha ∧ g.tail = some ta ∧ Chain h ha ta ns ∧
      (∀ n ∈ ns,
        0 ≤ n.x ∧ n.x < (BOARD_WIDTH : Int) ∧
        0 ≤ n.y ∧ n.y < (BOARD_HEIGHT : Int)) ∧
      List.Pairwise (fun m k => (m.x, m.y) ≠ (k.x, k.y)) ns := by
  obtain ⟨ha, ta, ns, h1, h2, h3, -, -, h6, h7⟩ := hin
  refine ⟨ha, ta, ns, h1, h2, h3, h6, ?_⟩
  refine h7.imp ?_
  intro m k hmk
  simp only [Ne, Prod.mk.injEq]
  tauto

/-- Witness for C2: the invariant holds of the concrete two-node state `gB`
over `heapB`, and there the conclusion evaluates. -/
theorem gameStateInv_bounds_and_no_overlap_witness :
    GameStateInv heapB gB ∧
    ∃ (ha ta : Addr) (ns : List SnakeNode),
      gB.head = some ha ∧ gB.tail = some ta ∧ Chain heapB ha ta ns ∧
      (∀ n ∈ ns,
        0 ≤ n.x ∧ n.x < (BOARD_WIDTH : Int) ∧
        0 ≤ n.y ∧ n.y < (BOARD_HEIGHT : Int)) ∧
      List.Pairwise (fun m k => (m.x, m.y) ≠ (k.x, k.y)) ns := by
  have hin : GameStateInv heapB gB :=
    ⟨0, 1, [⟨3, 4, some 1⟩, ⟨3, 5, none⟩], rfl, rfl,
      Chain.cons rfl rfl (Chain.last rfl rfl), rfl,
      by decide, by decide, by decide⟩
  exact ⟨hin, gameStateInv_bounds_and_no_overlap heapB gB hin⟩

/-- C3: the `GameTimer` record tracks the frame start time (`start_time`) and
a per-frame time budget (`frame_time`), and the pacing modelled from the spec
sleeps for exactly the remaining frame budget: whenever the time elapsed since
`start_time` is at most the budget, elapsed time plus sleep time equals the
budget. -/
theorem gameTimer_tracks_start_and_budget :
    (∀ (s f r : Int),
      (GameTimer.mk s f r).start_time = s ∧ (GameTimer.mk s f r).frame_time = f) ∧
    (∀ (t : GameTimer) (now : Int), now - t.start_time ≤ t.frame_time →
      (now - t.start_time) + sleepBudget t now = t.frame_time) := by
  refine ⟨fun s f r => ⟨rfl, rfl⟩, ?_⟩
  intro t now hle
  unfold sleepBudget
  rw [max_eq_right (by omega)]
  omega

/-- Witness for C3: at the concrete timer with start time 0 and a 50 ns frame
budget, at current time 20 the elapsed 20 ns plus the sleep equals the
budget. -/
theorem gameTimer_tracks_start_and_budget_witness :
    ((20 : Int) - (GameTimer.mk 0 50 60).start_time ≤
      (GameTimer.mk 0 50 60).frame_time) ∧
    ((20 : Int) - (GameTimer.mk 0 50 60).start_time) +
      sleepBudget (GameTimer.mk 0 50 60) 20 = (GameTimer.mk 0 50 60).frame_time :=
  ⟨by decide,
    gameTimer_tracks_start_and_budget.2 (GameTimer.mk 0 50 60) 20 (by decide)⟩

/-- C4: a `SnakeNode` consists of exactly an integer x coordinate, an integer
y coordinate, and a single forward link (its data is in bijection with such
triples, so there is no backward link or any other field), and `GameState`
holds both a head reference and a tail reference to the list. -/
theorem snakeNode_list_shape :
    Function.Bijective (fun n : SnakeNode => (n.x, n.y, n.next)) ∧
    ∀ (hd tl : Option Addr), ∃ g : GameState, g.head = hd ∧ g.tail = tl := by
  refine ⟨⟨?_, ?_⟩, ?_⟩
  · intro a b hab
    cases a; cases b
    simp only [Prod.mk.injEq] at hab
    simp only [SnakeNode.mk.injEq]
    exact hab
  · intro p
    exact ⟨⟨p.1, p.2.1, p.2.2⟩, rfl⟩
  · intro hd tl
    exact ⟨⟨0, 0, 0, 0, 0, hd, tl, 0, 0, 0, fun _ _ => ' '⟩, rfl, rfl⟩

/-- Witness for C4: injectivity applied at a concrete node, and a concrete
state holding head reference 4 and tail reference 9. -/
theorem snakeNode_list_shape_witness :
    (⟨1, 2, none⟩ : SnakeNode) = ⟨1, 2, none⟩ ∧
    ∃ g : GameState, g.head = some 4 ∧ g.tail = some 9 := by
  refine ⟨?_, snakeNode_list_shape.2 (some 4) (some 9)⟩
  exact snakeNode_list_shape.1.1 rfl

/-- C5: `GameState` owns a character grid of `BOARD_HEIGHT = 25` rows by
`BOARD_WIDTH = 80` columns together with score, direction, speed and pause
fields, all independently settable. -/
theorem gameState_board_and_scalars :
    BOARD_HEIGHT = 25 ∧ BOARD_WIDTH = 80 ∧
    Fintype.card (Fin BOARD_HEIGHT × Fin BOARD_WIDTH) = 25 * 80 ∧
    ∀ (b : Fin BOARD_HEIGHT → Fin BOARD_WIDTH → Char) (sc dir sp pa : Int),
      ∃ g : GameState, g.board = b ∧ g.score = sc ∧ g.direction = dir ∧
        g.speed = sp ∧ g.paused = pa := by
  refine ⟨rfl, rfl, by simp [BOARD_HEIGHT, BOARD_WIDTH], ?_⟩
  intro b sc dir sp pa
  exact ⟨⟨0, sc, dir, sp, pa, none, none, 0, 0, 0, b⟩, rfl, rfl, rfl, rfl, rfl⟩

/-- C6: a `MemoryPool` is exactly a start pointer, an end pointer, a single
current (bump) allocation pointer and a remaining-available-bytes counter —
its data is in bijection with such quadruples, so it carries no per-node
free-list or per-allocation bookkeeping field. -/
theorem memoryPool_bump_descriptor :
    Function.Bijective
      (fun p : MemoryPool => (p.pool_start, p.pool_end, p.current, p.available)) := by
  refine ⟨?_, ?_⟩
  · intro a b hab
    cases a; cases b
    simp only [Prod.mk.injEq] at hab
    simp only [MemoryPool.mk.injEq]
    exact hab
  · intro p
    exact ⟨⟨p.1, p.2.1, p.2.2.1, p.2.2.2⟩, rfl⟩

/-- Witness for C6: injectivity applied at a concrete pool descriptor. -/
theorem memoryPool_bump_descriptor_witness :
    (⟨4096, 8192, 4096, 4096⟩ : MemoryPool) = ⟨4096, 8192, 4096, 4096⟩ := by
  exact memoryPool_bump_descriptor.1 rfl
